import Mathlib

/-
Verification of the requests-cache core: the cache policy engine
(requests_cache/cache_control.py) and the cached response model
(requests_cache/models/response.py), embedded shallowly in Lean.

Conventions of the embedding:
* Python values that can flow through the expiration logic
  (None / int / bool / str / datetime / timedelta) are one inductive `Val`;
  datetimes are naive-UTC timestamps in whole seconds, timedeltas are second
  counts.  Floats are not used by any verified claim and are not modelled.
* Python dicts are association lists with unique keys maintained by `dset`;
  `dget?` is `dict.get`, `hasKey` is the `in` operator.
* HTTP header mappings (requests CaseInsensitiveDict) are association lists
  looked up case-insensitively with last-set-wins semantics (`hget`).
* Wall-clock time (datetime.utcnow) is passed in explicitly as `now : Int`.
-/

namespace RequestsCache

/-- Python value universe for the expiration logic: None, int, bool, str,
naive-UTC datetime (seconds), timedelta (seconds). -/
inductive Val : Type where
  | none : Val
  | int (n : Int) : Val
  | bool (b : Bool) : Val
  | str (s : String) : Val
  | dt (t : Int) : Val
  | td (d : Int) : Val
deriving DecidableEq, Repr

/-- Is this the Python value None. -/
def Val.isNone : Val → Bool
  | .none => true
  | _ => false

/-- Python truthiness of a `Val` (bool(v)): None and numeric zero and the
empty string are falsy; datetimes are always truthy; a zero timedelta is
falsy. -/
def pyTruthy : Val → Bool
  | .none => false
  | .int n => n != 0
  | .bool b => b
  | .str s => s != ""
  | .dt _ => true
  | .td d => d != 0

/-- Python equality test `v == m` against an int literal: ints compare
numerically, bools compare as 0/1, every other type compares unequal. -/
def pyEqInt : Val → Int → Bool
  | .int n, m => n == m
  | .bool b, m => (if b then (1 : Int) else 0) == m
  | _, _ => false

/-- Python str.lower on the ASCII range (requests lowercases header keys). -/
def lowerStr (s : String) : String := String.mk (s.data.map Char.toLower)

/-- Python str.strip(): remove leading and trailing whitespace. -/
def pyStrip (s : String) : String :=
  String.mk (((s.data.dropWhile Char.isWhitespace).reverse.dropWhile Char.isWhitespace).reverse)

/-- Accumulator form of `splitChar`: `acc` holds the current segment
reversed. -/
def splitCharAux (sep : Char) : List Char → List Char → List (List Char)
  | acc, [] => [acc.reverse]
  | acc, c :: rest =>
      if c == sep then acc.reverse :: splitCharAux sep [] rest
      else splitCharAux sep (c :: acc) rest

/-- Python s.split(sep) for a one-character separator: every occurrence
splits, empty segments are kept. -/
def splitChar (sep : Char) (s : String) : List String :=
  (splitCharAux sep [] s.data).map String.mk

/-- Headers: entries of a requests CaseInsensitiveDict. -/
abbrev Headers := List (String × String)

/-- Case-insensitive lookup in a header mapping, last-set entry wins
(CaseInsensitiveDict.__getitem__ / .get). -/
def hget (h : Headers) (k : String) : Option String :=
  (h.reverse.find? (fun p => lowerStr p.1 == lowerStr k)).map Prod.snd

/-- Python dict lookup `d.get(k)` on an association list: first entry with the
key (keys are unique in dicts built by `dset`). -/
def dget? {α : Type} (d : List (String × α)) (k : String) : Option α :=
  (d.find? (fun p => p.1 == k)).map Prod.snd

/-- Python `k in d` key-membership test. -/
def hasKey {α : Type} (d : List (String × α)) (k : String) : Bool :=
  (dget? d k).isSome

/-- Python dict assignment `d[k] = v`: replace the value of an existing key in
place, else append the new pair. -/
def dset {α : Type} : List (String × α) → String → α → List (String × α)
  | [], k, v => [(k, v)]
  | p :: rest, k, v => if p.1 == k then (k, v) :: rest else p :: dset rest k v

/-- Python `dict(pairs)`: fold the pairs left to right, later duplicate keys
overwrite earlier values in place. -/
def dictOfPairs (l : List (String × Val)) : List (String × Val) :=
  l.foldl (fun d p => dset d p.1 p.2) []

/-- Directive lookup `directives.get(k)`: an absent key and a stored Python
None both come back as None. -/
def dgetVal (d : List (String × Val)) (k : String) : Val :=
  (dget? d k).getD Val.none

/-- Numeric value of an ASCII digit character. -/
def digitVal (c : Char) : Nat := c.toNat - 48

/-- Continuation of `digitsVal`: the remaining characters after the first
digit, allowing single underscores between digits as Python int() does. -/
def digitsValAux : List Char → Nat → Option Nat
  | [], acc => some acc
  | '_' :: c :: rest, acc =>
      if c.isDigit then digitsValAux rest (acc * 10 + digitVal c) else Option.none
  | c :: rest, acc =>
      if c.isDigit then digitsValAux rest (acc * 10 + digitVal c) else Option.none

/-- Unsigned digit string of Python int(): one or more ASCII digits with
single underscores allowed only between digits. -/
def digitsVal : List Char → Option Nat
  | [] => Option.none
  | c :: rest => if c.isDigit then digitsValAux rest (digitVal c) else Option.none

/-- Python `int(s)` on an ASCII decimal string: surrounding whitespace is
ignored, an optional single sign precedes the digits, failure is None. -/
def pyIntOfString (s : String) : Option Int :=
  match (pyStrip s).toList with
  | '+' :: rest => (digitsVal rest).map (fun n => (n : Int))
  | '-' :: rest => (digitsVal rest).map (fun n => -(n : Int))
  | rest => (digitsVal rest).map (fun n => (n : Int))

/-- try_int: convert a value to an int if possible, otherwise None
(int() raises TypeError on None / datetime / timedelta and ValueError on
non-numeric strings; bools convert as 0/1). -/
def try_int : Val → Val
  | .int n => .int n
  | .bool b => .int (if b then 1 else 0)
  | .str s =>
      match pyIntOfString s with
      | some n => .int n
      | Option.none => .none
  | _ => .none

/-- May be set by either headers or expire_after param to disable caching. -/
def DO_NOT_CACHE : Int := 0

/-- Sentinel disabling expiration. -/
def NEVER_EXPIRE : Int := -1

/-- Split `s` at the first '=' character, when one occurs
(Python str.split with maxsplit 1). -/
def splitFirstEq (s : String) : Option (String × String) :=
  let cs := s.toList
  if cs.contains '=' then
    some (String.mk (cs.takeWhile (fun c => c != '=')),
          String.mk ((cs.dropWhile (fun c => c != '=')).tail))
  else Option.none

/-- split_kv_directive: strip the token; a key=value token maps the value
through try_int, a bare token maps to True. -/
def split_kv_directive (header_value : String) : String × Val :=
  let hv := pyStrip header_value
  match splitFirstEq hv with
  | some (k, v) => (k, try_int (Val.str v))
  | Option.none => (hv, Val.bool true)

/-- get_cache_directives: all Cache-Control directives as a dict built from
the comma-separated header value (empty or absent header contributes
nothing); an Expires header is injected under the key "expires" as its raw
string. -/
def get_cache_directives (headers : Headers) : List (String × Val) :=
  if headers.isEmpty then []
  else
    let kv :=
      match hget headers "Cache-Control" with
      | some cc =>
          if cc != "" then dictOfPairs ((splitChar ',' cc).map split_kv_directive) else []
      | Option.none => []
    match hget headers "Expires" with
    | some e => dset kv "expires" (Val.str e)
    | Option.none => kv

/-- Modelled from the spec: the `coalesce` helper imported from `_utils`
(a module not included in the sources) returns the first non-None value of
its arguments; absent sources are skipped, a null-coalescing chain. -/
def coalesce (vals : List Val) : Val :=
  ((vals.find? (fun v => !v.isNone)).getD Val.none)

/-- Glob matching of Python fnmatch.fnmatch on a posix platform, for the
pattern alphabet actually used by URL patterns: `*` matches any (possibly
empty) run of characters, `?` matches exactly one character, every other
character matches itself literally (bracket character classes are not used
by this repository and are not modelled). -/
def fnmatchList : List Char → List Char → Bool
  | [], [] => true
  | [], _ :: _ => false
  | '*' :: pr, [] => fnmatchList pr []
  | '*' :: pr, c :: sr => fnmatchList pr (c :: sr) || fnmatchList ('*' :: pr) sr
  | '?' :: _, [] => false
  | '?' :: pr, _ :: sr => fnmatchList pr sr
  | _ :: _, [] => false
  | c :: pr, d :: sr => c == d && fnmatchList pr sr
termination_by p s => p.length + s.length

/-- Drop trailing '*' characters (Python str.rstrip with argument). -/
def rstripStar (s : String) : String :=
  String.mk ((s.toList.reverse.dropWhile (fun c => c == '*')).reverse)

/-- Accumulator form of `afterScheme`: the current segment is kept reversed
and reset after each "://" occurrence. -/
def afterSchemeAux : List Char → List Char → List Char
  | acc, [] => acc.reverse
  | _, ':' :: '/' :: '/' :: rest => afterSchemeAux [] rest
  | acc, c :: rest => afterSchemeAux (c :: acc) rest

/-- The part after the last "://" separator, the whole string when none
occurs (Python split()[-1] with non-overlapping left-to-right splitting). -/
def afterScheme (s : String) : String :=
  String.mk (afterSchemeAux [] s.data)

/-- url_match: compare the base URL (scheme stripped) against the glob
pattern, itself scheme-stripped, with its trailing stars replaced by a
recursive wildcard. -/
def url_match (url pat : String) : Bool :=
  let u := afterScheme url
  let p := rstripStar (afterScheme pat) ++ "**"
  fnmatchList p.toList u.toList

/-- get_url_expiration: the value of the first pattern (in caller-provided
order) matching the URL; a falsy URL or no match yields None. -/
def get_url_expiration (url : String) (urls_expire_after : List (String × Val)) : Val :=
  if url == "" then Val.none
  else
    match urls_expire_after.find? (fun p => url_match url p.1) with
    | some p => p.2
    | Option.none => Val.none

/-- CacheActions: settings and headers translated into cache actions for one
request (attrs class; field defaults as in the source). -/
structure CacheActions where
  cache_control : Bool := false
  cache_key : String := ""
  expire_after : Val := Val.none
  only_if_cached : Bool := false
  request_directives : List (String × Val) := []
  revalidate : Bool := false
  skip_read : Bool := false
  skip_write : Bool := false
  validation_headers : List (String × String) := []
deriving DecidableEq, Repr

/-- CacheActions.from_request: initialize from request info and cache
settings.  The request is its header mapping plus its URL; the popped
requests-cache-refresh temporary header participates through its
truthiness. -/
def from_request (cache_key : String) (headers : Headers) (url : String)
    (cache_control : Bool) (session_expire_after : Val)
    (urls_expire_after : List (String × Val)) (request_expire_after : Val)
    (only_if_cached : Bool) (refresh : Bool) (revalidate : Bool) : CacheActions :=
  let directives := get_cache_directives headers
  let expire_after := coalesce [dgetVal directives "max-age", request_expire_after,
      get_url_expiration url urls_expire_after, session_expire_after]
  let refresh_temp_header :=
    match hget headers "requests-cache-refresh" with
    | some v => v != ""
    | Option.none => false
  let check_expiration := if cache_control then dgetVal directives "max-age" else expire_after
  let skip_write := pyEqInt check_expiration DO_NOT_CACHE || hasKey directives "no-store"
  { cache_control := cache_control
    cache_key := cache_key
    expire_after := expire_after
    only_if_cached := only_if_cached || hasKey directives "only-if-cached"
    request_directives := directives
    revalidate := revalidate || hasKey directives "no-cache"
    skip_read := skip_write || refresh || refresh_temp_header
    skip_write := skip_write
    validation_headers := [] }

/-- CachedResponse: the serialization-friendly response model
(requests_cache/models/response.py).  Fields follow the attrs fields of the
source plus the non-attrs class attribute `cache_key`; `request` and `next`
hold the owned request snapshots as payloads, `expires` and `created_at`
are naive-UTC timestamps in seconds, `content` is the body.  The raw
transport snapshot, cookies and elapsed time are never read by a verified
claim and are not modelled. -/
inductive CachedResponse : Type where
  | mk (content : String) (status_code : Int) (headers : Headers) (url : String)
       (encoding : Option String) (reason : Option String)
       (request : String) (next : Option String)
       (history : List CachedResponse)
       (expires : Option Int) (cache_key : Option String) (created_at : Int)

/-- Body content of a cached response. -/
def CachedResponse.content : CachedResponse → String
  | .mk c _ _ _ _ _ _ _ _ _ _ _ => c

/-- HTTP status code. -/
def CachedResponse.status_code : CachedResponse → Int
  | .mk _ st _ _ _ _ _ _ _ _ _ _ => st

/-- Response headers. -/
def CachedResponse.headers : CachedResponse → Headers
  | .mk _ _ h _ _ _ _ _ _ _ _ _ => h

/-- Response URL. -/
def CachedResponse.url : CachedResponse → String
  | .mk _ _ _ u _ _ _ _ _ _ _ _ => u

/-- Body encoding. -/
def CachedResponse.encoding : CachedResponse → Option String
  | .mk _ _ _ _ e _ _ _ _ _ _ _ => e

/-- Reason phrase. -/
def CachedResponse.reason : CachedResponse → Option String
  | .mk _ _ _ _ _ r _ _ _ _ _ _ => r

/-- Owned request snapshot. -/
def CachedResponse.request : CachedResponse → String
  | .mk _ _ _ _ _ _ rq _ _ _ _ _ => rq

/-- Owned next-request snapshot of a redirect response. -/
def CachedResponse.next : CachedResponse → Option String
  | .mk _ _ _ _ _ _ _ nx _ _ _ _ => nx

/-- Redirect history. -/
def CachedResponse.history : CachedResponse → List CachedResponse
  | .mk _ _ _ _ _ _ _ _ hs _ _ _ => hs

/-- Expiration instant, absent meaning never expires. -/
def CachedResponse.expires : CachedResponse → Option Int
  | .mk _ _ _ _ _ _ _ _ _ ex _ _ => ex

/-- Cache key, not serialized, set by the store at read time. -/
def CachedResponse.cache_key : CachedResponse → Option String
  | .mk _ _ _ _ _ _ _ _ _ _ ck _ => ck

/-- Creation instant. -/
def CachedResponse.created_at : CachedResponse → Int
  | .mk _ _ _ _ _ _ _ _ _ _ _ ca => ca

/-- Truthiness inherited from requests.Response: `__bool__` is `ok`, which is
False exactly when `raise_for_status` raises, that is for HTTP error codes
400 through 599. -/
def CachedResponse.ok (r : CachedResponse) : Bool :=
  if 400 ≤ r.status_code ∧ r.status_code < 600 then false else true

/-- is_expired: the response has an expiration and now is at or past it. -/
def CachedResponse.is_expired (r : CachedResponse) (now : Int) : Bool :=
  match r.expires with
  | some e => decide (now ≥ e)
  | Option.none => false

/-- Copy of a cached response with its `expires` field replaced. -/
def CachedResponse.withExpires : CachedResponse → Option Int → CachedResponse
  | .mk c st h u e rs rq nx hs _ ck ca, ex => .mk c st h u e rs rq nx hs ex ck ca

/-- A fresh response from the transport, as read by update_from_response:
its status code (for truthiness) and its headers. -/
structure Resp where
  status_code : Int
  headers : Headers
deriving DecidableEq, Repr

/-- Truthiness of a live requests.Response: `ok`, False for codes 400-599. -/
def respOk (r : Resp) : Bool :=
  if 400 ≤ r.status_code ∧ r.status_code < 600 then false else true

/-- _has_validator: the headers carry a truthy ETag or Last-Modified. -/
def truthyOptStr : Option String → Bool
  | some s => s != ""
  | Option.none => false

/-- _has_validator: bool(headers.get(ETag) or headers.get(Last-Modified)). -/
def has_validator (headers : Headers) : Bool :=
  truthyOptStr (hget headers "ETag") || truthyOptStr (hget headers "Last-Modified")

/-- CacheActions.update_from_cached_response: check for relevant cache
headers on a previously cached response and set headers for a conditional
request, if possible.  A falsy (error-status) cached response leaves the
actions untouched. -/
def update_from_cached_response (now : Int) (a : CacheActions) (r : CachedResponse) :
    CacheActions :=
  if !r.ok then a
  else
    let directives := get_cache_directives r.headers
    let reval := has_validator r.headers &&
      (r.is_expired now || a.revalidate || hasKey directives "no-cache" ||
        (hasKey directives "must-revalidate" && pyEqInt (dgetVal directives "max-age") 0))
    let vh :=
      if reval && truthyOptStr (hget r.headers "ETag") then
        dset a.validation_headers "If-None-Match" ((hget r.headers "ETag").getD "")
      else a.validation_headers
    let vh :=
      if reval && truthyOptStr (hget r.headers "Last-Modified") then
        dset vh "If-Modified-Since" ((hget r.headers "Last-Modified").getD "")
      else vh
    { a with revalidate := reval, validation_headers := vh }

/-- CacheActions.update_from_response: update expiration and write actions
from the headers of a new response.  A falsy (error-status) response or
disabled cache_control leaves the actions untouched. -/
def update_from_response (a : CacheActions) (r : Resp) : CacheActions :=
  if !respOk r || !a.cache_control then a
  else
    let directives := get_cache_directives r.headers
    let expire_after :=
      if pyTruthy (dgetVal directives "immutable") then Val.int NEVER_EXPIRE
      else coalesce [dgetVal directives "max-age", dgetVal directives "expires", a.expire_after]
    let no_store := hasKey directives "no-store" || hasKey a.request_directives "no-store"
    let expire_immediately := pyEqInt (try_int expire_after) DO_NOT_CACHE
    { a with
      expire_after := expire_after
      skip_write := (expire_immediately || no_store) && !has_validator r.headers }

/-- get_expiration_datetime: convert an expiration value in any supported
format to an absolute instant.  The RFC 5322 date parser used for strings
(email.utils.parsedate_to_datetime composed with to_utc) is standard-library
code taken as a parameter `parseDate`; None and the NEVER_EXPIRE sentinel
yield absence, a value numerically equal to zero yields the current instant,
datetimes pass through (already naive UTC in this model), numbers and
timedeltas are offsets from now. -/
def get_expiration_datetime (parseDate : String → Option Int) (now : Int)
    (expire_after : Val) : Option Int :=
  if expire_after.isNone || pyEqInt expire_after NEVER_EXPIRE then Option.none
  else if pyEqInt (try_int expire_after) DO_NOT_CACHE then some now
  else
    match expire_after with
    | .str s => parseDate s
    | .dt t => some t
    | .td d => some (now + d)
    | .int n => some (now + n)
    | .bool b => some (now + (if b then 1 else 0))
    | .none => Option.none

/-- CacheActions.expires: the user- or header-provided expiration value as
an absolute instant. -/
def CacheActions.expires (parseDate : String → Option Int) (now : Int)
    (a : CacheActions) : Option Int :=
  get_expiration_datetime parseDate now a.expire_after

/-- CachedResponse.reset_expiration: set a new expiration on the response
and report whether it is now expired. -/
def reset_expiration (parseDate : String → Option Int) (now : Int)
    (r : CachedResponse) (expire_after : Val) : CachedResponse × Bool :=
  let r2 := r.withExpires (get_expiration_datetime parseDate now expire_after)
  (r2, r2.is_expired now)

/-- A live requests.Response as consumed by CachedResponse.from_response:
the attributes copied by the conversion (`Response.__attrs__` members that
claims read, the request, and the next-request reference) plus the redirect
history of further live responses. -/
inductive LiveResp : Type where
  | mk (content : String) (status_code : Int) (headers : Headers) (url : String)
       (encoding : Option String) (reason : Option String)
       (request : String) (next : Option String)
       (history : List LiveResp)

/-- Body content of a live response. -/
def LiveResp.content : LiveResp → String
  | .mk c _ _ _ _ _ _ _ _ => c

/-- HTTP status code of a live response. -/
def LiveResp.status_code : LiveResp → Int
  | .mk _ st _ _ _ _ _ _ _ => st

/-- Headers of a live response. -/
def LiveResp.headers : LiveResp → Headers
  | .mk _ _ h _ _ _ _ _ _ => h

/-- Redirect history of a live response. -/
def LiveResp.history : LiveResp → List LiveResp
  | .mk _ _ _ _ _ _ _ _ hs => hs

/-- Redirect status codes of requests.models.REDIRECT_STATI. -/
def REDIRECT_STATI : List Int := [301, 302, 303, 307, 308]

/-- requests.Response.is_redirect: a location header is present and the
status code is one of the redirect codes. -/
def is_redirect_of (headers : Headers) (status_code : Int) : Bool :=
  (hget headers "location").isSome && REDIRECT_STATI.contains status_code

/-- is_redirect of a live response. -/
def LiveResp.is_redirect : LiveResp → Bool
  | .mk _ st h _ _ _ _ _ _ => is_redirect_of h st

/-- is_redirect of a cached response (inherited from requests.Response and
computed from the copied headers and status code). -/
def CachedResponse.is_redirect (r : CachedResponse) : Bool :=
  is_redirect_of r.headers r.status_code

/-- Modelled from the spec: `CachedRequest.from_request` (its module is not
part of the sources) snapshots the outgoing request into an owned
request-snapshot type; the snapshot is kept as an abstract payload copied
as-is. -/
def cachedRequest_from_request (req : String) : String := req

mutual

/-- CachedResponse.from_response on a live (non-cached) response: construct
fresh with the given expiration, copy the basic response attributes, store
the request, next-request and body snapshots, and copy the redirect history
through the same conversion unless this response is itself a redirect, in
which case its history is left empty.  The new instance has the class
default cache_key None and a creation time of now. -/
def from_response_live (now : Int) (expires : Option Int) : LiveResp → CachedResponse
  | .mk c st h u e rs rq nx hist =>
      CachedResponse.mk c st h u e rs (cachedRequest_from_request rq)
        (nx.map cachedRequest_from_request)
        (if is_redirect_of h st then [] else from_response_history now hist)
        expires Option.none now

/-- History copy of from_response: each history entry is converted by
from_response with the default expiration None. -/
def from_response_history (now : Int) : List LiveResp → List CachedResponse
  | [] => []
  | r :: rest => from_response_live now Option.none r :: from_response_history now rest

end

/-- CachedResponse.from_response on a response that is already a
CachedResponse: attr.evolve rebuilds the instance from its attrs fields with
only `expires` replaced; `cache_key` is not an attrs field, so the copy gets
the class default None. -/
def from_response_cached (r : CachedResponse) (expires : Option Int) : CachedResponse :=
  match r with
  | .mk c st h u e rs rq nx hist _ _ ca => .mk c st h u e rs rq nx hist expires Option.none ca

/-- Argument of CachedResponse.from_response: a live response or an already
cached one. -/
inductive AnyResponse : Type where
  | live : LiveResp → AnyResponse
  | cached : CachedResponse → AnyResponse

/-- CachedResponse.from_response: dispatch on whether the original is
already a CachedResponse. -/
def from_response (now : Int) (orig : AnyResponse) (expires : Option Int) : CachedResponse :=
  match orig with
  | .cached r => from_response_cached r expires
  | .live r => from_response_live now expires r

/-- Spec-side reading of a precedence chain: the first value in the list
that is not absent, else absent. -/
def firstNonAbsent : List Val → Val
  | [] => Val.none
  | v :: rest => if v.isNone then firstNonAbsent rest else v

theorem coalesce_eq_firstNonAbsent (l : List Val) : coalesce l = firstNonAbsent l := by
  induction l with
  | nil => rfl
  | cons v rest ih =>
    cases hv : v.isNone with
    | true => simpa [coalesce, firstNonAbsent, List.find?_cons, hv] using ih
    | false => simp [coalesce, firstNonAbsent, List.find?_cons, hv]

theorem dget_dset_self {α : Type} (d : List (String × α)) (k : String) (v : α) :
    dget? (dset d k v) k = some v := by
  induction d with
  | nil => simp [dset, dget?, List.find?]
  | cons p rest ih =>
    by_cases h : p.1 == k
    · simp [dset, dget?, List.find?, h]
    · simp only [dset, h, if_neg]
      simpa [dget?, List.find?, h] using ih

theorem dget_dset_ne {α : Type} (d : List (String × α)) (k k2 : String) (v : α)
    (hne : (k == k2) = false) : dget? (dset d k v) k2 = dget? d k2 := by
  induction d with
  | nil => simp [dset, dget?, List.find?, hne]
  | cons p rest ih =>
    by_cases h : p.1 == k
    · have hp : p.1 = k := by simpa using h
      simp [dset, dget?, List.find?, h, hp, hne]
    · simp only [dset, h, if_neg]
      by_cases h2 : p.1 == k2
      · simp [dget?, List.find?, h2]
      · simpa [dget?, List.find?, h2] using ih

/-- C1: for every request and configuration, from_request resolves
expire_after as the first non-absent value in the order request-header
max-age directive, request_expire_after, the value of the first pattern of
urls_expire_after (in caller-provided order) whose glob matches the request
URL, session_expire_after; in particular a request header
Cache-Control: max-age=360 with session_expire_after 60 resolves to 360. -/
theorem from_request_expire_after_precedence :
    (∀ (cache_key : String) (headers : Headers) (url : String) (cache_control : Bool)
        (session_expire_after : Val) (urls_expire_after : List (String × Val))
        (request_expire_after : Val) (only_if_cached refresh revalidate : Bool),
      (from_request cache_key headers url cache_control session_expire_after
          urls_expire_after request_expire_after only_if_cached refresh
          revalidate).expire_after
        = firstNonAbsent [dgetVal (get_cache_directives headers) "max-age",
            request_expire_after, get_url_expiration url urls_expire_after,
            session_expire_after]) ∧
    (from_request "key" [("Cache-Control", "max-age=360")] "https://example.com" true
        (Val.int 60) [] Val.none false false false).expire_after = Val.int 360 := by
  constructor
  · intro cache_key headers url cache_control session_expire_after urls_expire_after
      request_expire_after only_if_cached refresh revalidate
    exact coalesce_eq_firstNonAbsent _
  · decide

/-- C9: on actions constructed by from_request, update_from_cached_response
changes only the revalidate flag and the validation_headers mapping, and
update_from_response changes only expire_after and skip_write; every other
field is left unchanged by the respective update. -/
theorem update_frame_conditions :
    ∀ (cache_key : String) (headers : Headers) (url : String) (cache_control : Bool)
      (session_expire_after : Val) (urls_expire_after : List (String × Val))
      (request_expire_after : Val) (only_if_cached refresh revalidate : Bool)
      (r1 : CachedResponse) (r2 : Resp) (now : Int),
      (let a := from_request cache_key headers url cache_control session_expire_after
          urls_expire_after request_expire_after only_if_cached refresh revalidate
       ((update_from_cached_response now a r1).cache_key = a.cache_key ∧
        (update_from_cached_response now a r1).cache_control = a.cache_control ∧
        (update_from_cached_response now a r1).expire_after = a.expire_after ∧
        (update_from_cached_response now a r1).only_if_cached = a.only_if_cached ∧
        (update_from_cached_response now a r1).skip_read = a.skip_read ∧
        (update_from_cached_response now a r1).skip_write = a.skip_write ∧
        (update_from_cached_response now a r1).request_directives = a.request_directives) ∧
       ((update_from_response a r2).cache_key = a.cache_key ∧
        (update_from_response a r2).cache_control = a.cache_control ∧
        (update_from_response a r2).only_if_cached = a.only_if_cached ∧
        (update_from_response a r2).revalidate = a.revalidate ∧
        (update_from_response a r2).skip_read = a.skip_read ∧
        (update_from_response a r2).validation_headers = a.validation_headers ∧
        (update_from_response a r2).request_directives = a.request_directives)) := by
  intro cache_key headers url cache_control session_expire_after urls_expire_after
    request_expire_after only_if_cached refresh revalidate r1 r2 now
  constructor
  · unfold update_from_cached_response
    split <;> simp
  · unfold update_from_response
    split <;> simp

/-- C10: a cached response with an HTTP error status (400 to 599) is falsy
through the inherited boolean conversion, so update_from_cached_response
returns the actions entirely unchanged, whatever its expiration, ETag or
Last-Modified headers say. -/
theorem update_from_cached_response_error_noop :
    ∀ (now : Int) (a : CacheActions) (r : CachedResponse),
      400 ≤ r.status_code → r.status_code < 600 →
      update_from_cached_response now a r = a := by
  intro now a r h1 h2
  have hok : r.ok = false := by simp [CachedResponse.ok, h1, h2]
  simp [update_from_cached_response, hok]

/-- Witness for C10: a 404 cached response that is expired and carries an
ETag validator still leaves freshly constructed actions unchanged. -/
theorem update_from_cached_response_error_noop_witness :
    update_from_cached_response 100 { cache_control := true, revalidate := false }
      (CachedResponse.mk "" 404 [("ETag", "abc")] "https://example.com" Option.none
        Option.none "req" Option.none [] (some 5) Option.none 0)
    = { cache_control := true, revalidate := false } :=
  update_from_cached_response_error_noop 100 _ _ (by decide) (by decide)

/-- C2 counterexample: the claim quantifies over every response, but
update_from_response is a no-op on a falsy (error-status) response.  With
actions whose skip_write is already true and expire_after 0, a 500 response
carrying an ETag keeps skip_write true although the claimed iff demands
false (a validator is present). -/
theorem update_from_response_skip_write_counterexample :
    (update_from_response
        { cache_control := true, expire_after := Val.int 0, skip_read := true,
          skip_write := true }
        { status_code := 500, headers := [("ETag", "abc")] }).skip_write = true ∧
    ¬(((pyEqInt (try_int (update_from_response
            { cache_control := true, expire_after := Val.int 0, skip_read := true,
              skip_write := true }
            { status_code := 500, headers := [("ETag", "abc")] }).expire_after)
          DO_NOT_CACHE = true ∨
        hasKey (get_cache_directives [("ETag", "abc")]) "no-store" = true ∨
        hasKey ([] : List (String × Val)) "no-store" = true) ∧
       has_validator [("ETag", "abc")] = false)) := by decide

/-- C2 amended: for every CacheActions with cache_control true and every
truthy (non-error-status) response, after update_from_response skip_write
is true iff (the resolved expire_after numerically equals DO_NOT_CACHE, or
a no-store directive is present in the response directives or in the
request directives captured at construction) and the response headers carry
neither an ETag nor a Last-Modified validator; in particular a response
with Cache-Control max-age=0 plus an ETag yields skip_write false. -/
theorem update_from_response_skip_write_amended :
    (∀ (a : CacheActions) (r : Resp), a.cache_control = true → respOk r = true →
      ((update_from_response a r).skip_write = true ↔
        ((pyEqInt (try_int (update_from_response a r).expire_after) DO_NOT_CACHE = true ∨
          hasKey (get_cache_directives r.headers) "no-store" = true ∨
          hasKey a.request_directives "no-store" = true) ∧
         has_validator r.headers = false))) ∧
    (update_from_response { cache_control := true }
        { status_code := 200,
          headers := [("Cache-Control", "max-age=0"), ("ETag", "abc")] }).skip_write
      = false := by
  constructor
  · intro a r hc hok
    simp only [update_from_response, hok, hc, Bool.not_true, Bool.or_self, Bool.or_false,
      if_false]
    simp [Bool.and_eq_true, Bool.or_eq_true, Bool.not_eq_true', or_assoc]
  · decide

/-- Witness for the amended C2: a concrete instantiation of the iff at a
truthy response with no-store in its directives and no validator. -/
theorem update_from_response_skip_write_amended_witness :
    (update_from_response { cache_control := true, expire_after := Val.int 5 }
        { status_code := 200, headers := [("Cache-Control", "no-store")] }).skip_write = true ↔
      ((pyEqInt (try_int (update_from_response
            { cache_control := true, expire_after := Val.int 5 }
            { status_code := 200, headers := [("Cache-Control", "no-store")] }).expire_after)
          DO_NOT_CACHE = true ∨
        hasKey (get_cache_directives
          (({ status_code := 200, headers := [("Cache-Control", "no-store")] } : Resp)).headers)
          "no-store" = true ∨
        hasKey
          ({ cache_control := true, expire_after := Val.int 5 } : CacheActions).request_directives
          "no-store" = true) ∧
       has_validator
         (({ status_code := 200, headers := [("Cache-Control", "no-store")] } : Resp)).headers
         = false) :=
  update_from_response_skip_write_amended.1
    { cache_control := true, expire_after := Val.int 5 }
    { status_code := 200, headers := [("Cache-Control", "no-store")] } (by decide) (by decide)

/-- C5 counterexample: the code tests the truthiness of the immutable
directive value, not its presence.  A response header Cache-Control:
immutable=0 has the directive present with a falsy value, so expire_after
is resolved by the coalescing chain (staying 60) instead of being forced to
NEVER_EXPIRE. -/
theorem update_from_response_immutable_counterexample :
    hasKey (get_cache_directives [("Cache-Control", "immutable=0")]) "immutable" = true ∧
    (update_from_response { cache_control := true, expire_after := Val.int 60 }
        { status_code := 200, headers := [("Cache-Control", "immutable=0")] }).expire_after
      = Val.int 60 ∧
    Val.int 60 ≠ Val.int NEVER_EXPIRE := by decide

/-- C5 amended: for every CacheActions with cache_control true and every
truthy (non-error-status) response, update_from_response sets expire_after
to NEVER_EXPIRE when the immutable directive is present with a truthy value
in the parsed response directives, and otherwise resolves expire_after as
the first non-absent value among the response max-age directive, the
response Expires header value, and the current expire_after. -/
theorem update_from_response_immutable_amended :
    ∀ (a : CacheActions) (r : Resp), a.cache_control = true → respOk r = true →
      (pyTruthy (dgetVal (get_cache_directives r.headers) "immutable") = true →
        (update_from_response a r).expire_after = Val.int NEVER_EXPIRE) ∧
      (pyTruthy (dgetVal (get_cache_directives r.headers) "immutable") = false →
        (update_from_response a r).expire_after =
          firstNonAbsent [dgetVal (get_cache_directives r.headers) "max-age",
            dgetVal (get_cache_directives r.headers) "expires", a.expire_after]) := by
  intro a r hc hok
  constructor
  · intro him
    simp [update_from_response, hok, hc, him]
  · intro him
    simp [update_from_response, hok, hc, him, coalesce_eq_firstNonAbsent]

/-- Witness for the amended C5: a bare immutable directive on a truthy
response forces expire_after to NEVER_EXPIRE. -/
theorem update_from_response_immutable_amended_witness :
    (update_from_response { cache_control := true, expire_after := Val.int 60 }
        { status_code := 200, headers := [("Cache-Control", "immutable")] }).expire_after
      = Val.int NEVER_EXPIRE :=
  (update_from_response_immutable_amended
      { cache_control := true, expire_after := Val.int 60 }
      { status_code := 200, headers := [("Cache-Control", "immutable")] }
      (by decide) (by decide)).1 (by decide)

/-- C3: on a truthy (non-error-status) cached response,
update_from_cached_response sets revalidate to true iff the cached headers
carry a validator (a truthy ETag or Last-Modified) and at least one of: the
entry is expired, revalidate was already true, the response directives
contain no-cache, or they contain must-revalidate with max-age equal to 0;
and when revalidate ends up true, If-None-Match is set from the cached ETag
and If-Modified-Since from the cached Last-Modified, each independently of
the presence of the other. -/
theorem update_from_cached_response_revalidation :
    ∀ (now : Int) (a : CacheActions) (r : CachedResponse), r.ok = true →
      ((update_from_cached_response now a r).revalidate = true ↔
        (has_validator r.headers = true ∧
          (r.is_expired now = true ∨ a.revalidate = true ∨
           hasKey (get_cache_directives r.headers) "no-cache" = true ∨
           (hasKey (get_cache_directives r.headers) "must-revalidate" = true ∧
            pyEqInt (dgetVal (get_cache_directives r.headers) "max-age") 0 = true)))) ∧
      ((update_from_cached_response now a r).revalidate = true →
        (∀ v : String, hget r.headers "ETag" = some v → v ≠ "" →
          dget? (update_from_cached_response now a r).validation_headers "If-None-Match"
            = some v) ∧
        (∀ v : String, hget r.headers "Last-Modified" = some v → v ≠ "" →
          dget? (update_from_cached_response now a r).validation_headers "If-Modified-Since"
            = some v)) := by
  intro now a r hok
  refine ⟨?_, ?_⟩
  · simp [update_from_cached_response, hok, Bool.and_eq_true, Bool.or_eq_true, and_assoc,
      or_assoc]
  · intro hrv
    constructor
    · intro v hE hvne
      have hT : truthyOptStr (hget r.headers "ETag") = true := by
        simp [truthyOptStr, hE, hvne]
      have hTv : truthyOptStr (some v) = true := by simp [truthyOptStr, hvne]
      have hne : (("If-Modified-Since" : String) == "If-None-Match") = false := by decide
      simp only [update_from_cached_response, hok, Bool.not_true, Bool.false_eq_true,
        if_false] at hrv ⊢
      rw [hrv] at *
      by_cases hLM : truthyOptStr (hget r.headers "Last-Modified") = true
      · simp [hE, hT, hTv, hLM]
        rw [dget_dset_ne _ _ _ _ hne, dget_dset_self]
      · simp only [Bool.not_eq_true] at hLM
        simp [hE, hT, hTv, hLM]
        rw [dget_dset_self]
    · intro v hL hvne
      have hT : truthyOptStr (hget r.headers "Last-Modified") = true := by
        simp [truthyOptStr, hL, hvne]
      have hTv : truthyOptStr (some v) = true := by simp [truthyOptStr, hvne]
      simp only [update_from_cached_response, hok, Bool.not_true, Bool.false_eq_true,
        if_false] at hrv ⊢
      rw [hrv] at *
      simp [hL, hT, hTv]
      rw [dget_dset_self]

/-- Witness for C3: a 200 cached response, expired with both validators,
triggers revalidation and populates If-None-Match with the cached ETag. -/
theorem update_from_cached_response_revalidation_witness :
    (update_from_cached_response 100 {}
      (CachedResponse.mk "" 200 [("ETag", "abc"), ("Last-Modified", "Mon")]
        "https://example.com" Option.none Option.none "req" Option.none []
        (some 50) Option.none 0)).revalidate = true ∧
    dget? (update_from_cached_response 100 {}
      (CachedResponse.mk "" 200 [("ETag", "abc"), ("Last-Modified", "Mon")]
        "https://example.com" Option.none Option.none "req" Option.none []
        (some 50) Option.none 0)).validation_headers "If-None-Match" = some "abc" := by
  have h := update_from_cached_response_revalidation 100 {}
    (CachedResponse.mk "" 200 [("ETag", "abc"), ("Last-Modified", "Mon")]
      "https://example.com" Option.none Option.none "req" Option.none []
      (some 50) Option.none 0) (by decide)
  have hrv := h.1.mpr (by decide)
  exact ⟨hrv, (h.2 hrv).1 "abc" (by decide) (by decide)⟩

/-- C4 counterexample: a key=value token whose value is not an integer is
parsed to the Python value None, not kept in its original string form. -/
theorem split_kv_directive_counterexample :
    (split_kv_directive "max-age=abc").2 = Val.none ∧ Val.none ≠ Val.str "abc" := by decide

/-- C4 amended: split_kv_directive never fails: a bare token maps to True,
and for a key=value token (first = of the stripped token splits it) the
value goes through try_int, yielding the parsed integer when the value is
an integer literal and None otherwise; in particular max-age=60 parses to
the pair of max-age and 60 and no-cache to the pair of no-cache and True. -/
theorem split_kv_directive_amended :
    (∀ hv : String, (split_kv_directive hv).2 = Val.bool true ∨
      (∃ n : Int, (split_kv_directive hv).2 = Val.int n) ∨
      (split_kv_directive hv).2 = Val.none) ∧
    (∀ s k v : String, splitFirstEq (pyStrip s) = some (k, v) →
      split_kv_directive s = (k, try_int (Val.str v))) ∧
    split_kv_directive "max-age=60" = ("max-age", Val.int 60) ∧
    split_kv_directive "no-cache" = ("no-cache", Val.bool true) := by
  refine ⟨?_, ?_, by decide, by decide⟩
  · intro hv
    unfold split_kv_directive
    cases h : splitFirstEq (pyStrip hv) with
    | none => simp [h]
    | some kv =>
      cases kv with
      | mk k v =>
        cases h2 : pyIntOfString v with
        | none => simp [h, try_int, h2]
        | some n => exact Or.inr (Or.inl ⟨n, by simp [h, try_int, h2]⟩)
  · intro s k v h
    simp [split_kv_directive, h]

/-- Witness for the amended C4: the key=value branch applied to a concrete
token. -/
theorem split_kv_directive_amended_witness :
    split_kv_directive "max-age=61" = ("max-age", try_int (Val.str "61")) :=
  split_kv_directive_amended.2.1 "max-age=61" "max-age" "61" (by decide)

/-- C6: re-stamping an already cached response through from_response copies
every modelled field unchanged, except expires which becomes the argument
and cache_key which is reset to the class default None. -/
theorem from_response_restamp :
    ∀ (now : Int) (r : CachedResponse) (e : Option Int),
      (from_response now (AnyResponse.cached r) e).content = r.content ∧
      (from_response now (AnyResponse.cached r) e).headers = r.headers ∧
      (from_response now (AnyResponse.cached r) e).status_code = r.status_code ∧
      (from_response now (AnyResponse.cached r) e).history = r.history ∧
      (from_response now (AnyResponse.cached r) e).url = r.url ∧
      (from_response now (AnyResponse.cached r) e).encoding = r.encoding ∧
      (from_response now (AnyResponse.cached r) e).reason = r.reason ∧
      (from_response now (AnyResponse.cached r) e).request = r.request ∧
      (from_response now (AnyResponse.cached r) e).next = r.next ∧
      (from_response now (AnyResponse.cached r) e).created_at = r.created_at ∧
      (from_response now (AnyResponse.cached r) e).expires = e ∧
      (from_response now (AnyResponse.cached r) e).cache_key = Option.none := by
  intro now r e
  cases r with
  | mk c st h u en rs rq nx hist ex ck ca =>
    exact ⟨rfl, rfl, rfl, rfl, rfl, rfl, rfl, rfl, rfl, rfl, rfl, rfl⟩

theorem from_response_history_length (now : Int) (l : List LiveResp) :
    (from_response_history now l).length = l.length := by
  induction l with
  | nil => rfl
  | cons r rest ih => simp [from_response_history, ih]

theorem from_response_live_redirect_history_empty (now : Int) (e : Option Int)
    (r : LiveResp) (h : r.is_redirect = true) :
    (from_response_live now e r).history = [] := by
  cases r with
  | mk c st hd u en rs rq nx hist =>
    simp only [LiveResp.is_redirect] at h
    simp [from_response_live, CachedResponse.history, h]

theorem from_response_history_entries_empty (now : Int) (l : List LiveResp)
    (h : ∀ x ∈ l, LiveResp.is_redirect x = true) :
    ∀ c ∈ from_response_history now l, c.history = [] := by
  induction l with
  | nil => intro c hc; simp [from_response_history] at hc
  | cons r rest ih =>
    intro c hc
    simp only [from_response_history, List.mem_cons] at hc
    cases hc with
    | inl hc =>
      subst hc
      exact from_response_live_redirect_history_empty now Option.none r (h r (by simp))
    | inr hc => exact ih (fun x hx => h x (by simp [hx])) c hc

/-- C7: converting a live response whose redirect history consists of
redirect responses yields a cached history of the same length in which
every entry has an empty history of its own, and a live response that is
itself a redirect gets an empty cached history, so sub-histories are never
nested. -/
theorem from_response_flattens_redirect_history :
    ∀ (now : Int) (e : Option Int) (r : LiveResp),
      (∀ x ∈ r.history, LiveResp.is_redirect x = true) →
      ((r.is_redirect = false →
        (from_response now (AnyResponse.live r) e).history.length = r.history.length ∧
        (∀ c ∈ (from_response now (AnyResponse.live r) e).history, c.history = [])) ∧
       (r.is_redirect = true →
        (from_response now (AnyResponse.live r) e).history = [])) := by
  intro now e r hred
  constructor
  · intro hnr
    cases r with
    | mk c st hd u en rs rq nx hist =>
      simp only [LiveResp.is_redirect] at hnr
      simp only [LiveResp.history] at hred ⊢
      simp only [from_response, from_response_live, CachedResponse.history, hnr,
        Bool.false_eq_true, if_false]
      exact ⟨from_response_history_length now hist,
        from_response_history_entries_empty now hist hred⟩
  · intro hr
    exact from_response_live_redirect_history_empty now e r hr

/-- Witness for C7: a 200 response behind two redirect hops converts to a
history of the same length whose entries all have empty histories. -/
theorem from_response_flattens_redirect_history_witness :
    (from_response 0 (AnyResponse.live (LiveResp.mk "body" 200 [] "https://c"
        Option.none Option.none "r0" Option.none
        [LiveResp.mk "" 301 [("location", "https://b")] "https://a" Option.none Option.none
          "r1" Option.none [],
         LiveResp.mk "" 302 [("location", "https://c")] "https://b" Option.none Option.none
          "r2" Option.none []])) Option.none).history.length =
      (LiveResp.mk "body" 200 [] "https://c" Option.none Option.none "r0" Option.none
        [LiveResp.mk "" 301 [("location", "https://b")] "https://a" Option.none Option.none
          "r1" Option.none [],
         LiveResp.mk "" 302 [("location", "https://c")] "https://b" Option.none Option.none
          "r2" Option.none []]).history.length ∧
    ∀ c ∈ (from_response 0 (AnyResponse.live (LiveResp.mk "body" 200 [] "https://c"
        Option.none Option.none "r0" Option.none
        [LiveResp.mk "" 301 [("location", "https://b")] "https://a" Option.none Option.none
          "r1" Option.none [],
         LiveResp.mk "" 302 [("location", "https://c")] "https://b" Option.none Option.none
          "r2" Option.none []])) Option.none).history, c.history = [] :=
  (from_response_flattens_redirect_history 0 Option.none
    (LiveResp.mk "body" 200 [] "https://c" Option.none Option.none "r0" Option.none
      [LiveResp.mk "" 301 [("location", "https://b")] "https://a" Option.none Option.none
        "r1" Option.none [],
       LiveResp.mk "" 302 [("location", "https://c")] "https://b" Option.none Option.none
        "r2" Option.none []]) (by decide)).1 (by decide)

theorem expires_withExpires (r : CachedResponse) (e : Option Int) :
    (r.withExpires e).expires = e := by
  cases r with
  | mk c st h u en rs rq nx hist ex ck ca => rfl

/-- C8: get_expiration_datetime returns absence for a None or NEVER_EXPIRE
expiration, whatever date parser is used for strings; for an expiration
numerically equal to 0 (DO_NOT_CACHE) it returns an instant at most now,
and a cached response re-stamped with such an expiration through
reset_expiration is immediately expired. -/
theorem get_expiration_datetime_sentinels :
    ∀ (parseDate : String → Option Int) (now : Int) (v : Val) (r : CachedResponse),
      ((v = Val.none ∨ pyEqInt v NEVER_EXPIRE = true) →
        get_expiration_datetime parseDate now v = Option.none) ∧
      (pyEqInt (try_int v) DO_NOT_CACHE = true →
        (∃ t : Int, get_expiration_datetime parseDate now v = some t ∧ t ≤ now) ∧
        (reset_expiration parseDate now r v).2 = true) := by
  intro pd now v r
  constructor
  · intro h
    cases h with
    | inl h => subst h; rfl
    | inr h => simp [get_expiration_datetime, h]
  · intro h
    have hguard : (v.isNone || pyEqInt v NEVER_EXPIRE) = false := by
      cases v <;> simp_all [try_int, pyEqInt, Val.isNone, NEVER_EXPIRE, DO_NOT_CACHE]
    have hg : get_expiration_datetime pd now v = some now := by
      simp [get_expiration_datetime, hguard, h]
    refine ⟨⟨now, hg, le_refl now⟩, ?_⟩
    simp [reset_expiration, hg, CachedResponse.is_expired, expires_withExpires]

/-- Witness for C8: the NEVER_EXPIRE sentinel yields no expiration, and a
zero expiration makes a cached response immediately expired. -/
theorem get_expiration_datetime_sentinels_witness :
    get_expiration_datetime (fun _ => Option.none) 100 (Val.int (-1)) = Option.none ∧
    (reset_expiration (fun _ => Option.none) 100
      (CachedResponse.mk "" 200 [] "https://example.com" Option.none Option.none "req"
        Option.none [] Option.none Option.none 0) (Val.int 0)).2 = true :=
  ⟨(get_expiration_datetime_sentinels (fun _ => Option.none) 100 (Val.int (-1))
      (CachedResponse.mk "" 200 [] "https://example.com" Option.none Option.none "req"
        Option.none [] Option.none Option.none 0)).1 (Or.inr (by decide)),
   ((get_expiration_datetime_sentinels (fun _ => Option.none) 100 (Val.int 0)
      (CachedResponse.mk "" 200 [] "https://example.com" Option.none Option.none "req"
        Option.none [] Option.none Option.none 0)).2 (by decide)).2⟩

end RequestsCache
